import Mathlib

/-!
Shallow embedding of the Storage-Manager repository (src/assign2/storage_mgr.c
and src/assign2/buffer_mgr.c) and proofs about its buffer pool.

Modelling conventions:
* C `int` fields become `Int`; C 0/1 bit fields (`dirtybit`, `secondChance`)
  become `Bool`.
* A page's byte content is an abstract `List Nat`; the claims never depend on
  `PAGE_SIZE` byte granularity, only on whole-page contents.
* The file system environment is a `Disk`: whether `fopen` on the pool's page
  file succeeds (`openable`), the file contents as a list of pages, and the
  set of page slots at which an `fwrite` would come up short (`failWrites`) —
  the environment's only nondeterminism, fixed per run.
* `malloc` is assumed to succeed and null-pool/null-handle guard branches are
  not modelled: every claim is about a live pool and live handles.
* Each replacement strategy additionally reports the index of the frame it
  replaced (`Option Nat`), a ghost observation of the same computation; the
  C functions are `void` and `pinPage` ignores the result, which the model
  mirrors by dropping that component.
-/

/-- PAGE_SIZE from the headers (the spec fixes it at 4096 bytes). -/
def PAGE_SIZE : Nat := 4096

/-- NO_PAGE sentinel for an empty frame (the spec fixes it at -1). -/
def NO_PAGE : Int := -1

/-- Return codes, modelled from the error enumeration the spec gives in its
error-handling section (the dberror header is not part of src/). -/
inductive RC where
  | RC_OK
  | RC_ERROR
  | RC_FILE_NOT_FOUND
  | RC_FILE_HANDLE_NOT_INIT
  | RC_WRITE_FAILED
  | RC_READ_NON_EXISTING_PAGE
  | RC_BUFF_POOL_NOT_FOUND
  | RC_PINNED_PAGES_IN_BUFFER
deriving DecidableEq, Repr

export RC (RC_OK RC_ERROR RC_FILE_NOT_FOUND RC_FILE_HANDLE_NOT_INIT
  RC_WRITE_FAILED RC_READ_NON_EXISTING_PAGE RC_BUFF_POOL_NOT_FOUND
  RC_PINNED_PAGES_IN_BUFFER)

/-- A page's content: an abstract list of bytes. -/
abbrev Page := List Nat

/-- The zero-filled page written by `appendEmptyBlock`. -/
def zeroPage : Page := List.replicate PAGE_SIZE 0

/-- The file-system environment for the single page file the pool manages:
whether opening the file succeeds, the file contents as whole pages, and the
page slots at which a physical write would fail short. -/
structure Disk where
  openable : Bool
  pages : List Page
  failWrites : List Int
deriving DecidableEq, Repr

/-- SM_FileHandle from storage_mgr.h: current page position and the page
count computed at open time (file name is implicit: there is one file). -/
structure SM_FileHandle where
  curPagePos : Int
  totalNumPages : Int
deriving DecidableEq, Repr

/-- openPageFile (storage_mgr.c): fails with RC_FILE_NOT_FOUND when the file
cannot be opened, otherwise yields a handle positioned at page 0 whose
totalNumPages is the file's page count. -/
def openPageFile (d : Disk) : Except RC SM_FileHandle :=
  if d.openable then
    Except.ok { curPagePos := 0, totalNumPages := (d.pages.length : Int) }
  else
    Except.error RC_FILE_NOT_FOUND

/-- Write page content `mem` into slot `n` of the file, extending (and
zero-filling any gap, as fseek past EOF does) when `n` is at or past the
end. -/
def setPage (ps : List Page) (n : Nat) (mem : Page) : List Page :=
  if n < ps.length then ps.set n mem
  else ps ++ List.replicate (n - ps.length) zeroPage ++ [mem]

/-- readBlock (storage_mgr.c): bounds-check against the handle's
totalNumPages, then open and read; curPagePos is updated before the
short-read check, exactly as in the source. Returns the read page on
success. -/
def readBlock (pageNum : Int) (fh : SM_FileHandle) (d : Disk) :
    RC × SM_FileHandle × Option Page :=
  if pageNum < 0 ∨ pageNum ≥ fh.totalNumPages then
    (RC_READ_NON_EXISTING_PAGE, fh, none)
  else if ¬ d.openable then
    (RC_FILE_NOT_FOUND, fh, none)
  else
    let fh' := { fh with curPagePos := pageNum }
    match d.pages[pageNum.toNat]? with
    | some pg => (RC_OK, fh', some pg)
    | none => (RC_READ_NON_EXISTING_PAGE, fh', none)

/-- writeBlock (storage_mgr.c): rejects `pageNum < 0` or
`pageNum > totalNumPages` (so index `totalNumPages` itself is accepted),
rejects a null buffer, fails when the file is unopenable or the physical
write fails, and otherwise stores the page, updates curPagePos and
recomputes totalNumPages from the (possibly grown) file. -/
def writeBlock (pageNum : Int) (fh : SM_FileHandle) (mem : Option Page)
    (d : Disk) : RC × SM_FileHandle × Disk :=
  match mem with
  | none => (RC_WRITE_FAILED, fh, d)
  | some buf =>
    if pageNum < 0 ∨ pageNum > fh.totalNumPages then
      (RC_WRITE_FAILED, fh, d)
    else if ¬ d.openable then
      (RC_FILE_NOT_FOUND, fh, d)
    else if pageNum ∈ d.failWrites then
      (RC_WRITE_FAILED, fh, d)
    else
      let d' := { d with pages := setPage d.pages pageNum.toNat buf }
      (RC_OK,
       { curPagePos := pageNum, totalNumPages := (d'.pages.length : Int) },
       d')

/-- appendEmptyBlock (storage_mgr.c): appends one zero-filled page at the
end of the file and increments the handle's totalNumPages; curPagePos is not
touched. The physical write fails when the end slot is in `failWrites`. -/
def appendEmptyBlock (fh : SM_FileHandle) (d : Disk) :
    RC × SM_FileHandle × Disk :=
  if ¬ d.openable then
    (RC_FILE_NOT_FOUND, fh, d)
  else if (d.pages.length : Int) ∈ d.failWrites then
    (RC_WRITE_FAILED, fh, d)
  else
    (RC_OK, { fh with totalNumPages := fh.totalNumPages + 1 },
     { d with pages := d.pages ++ [zeroPage] })

/-- The append loop of ensureCapacity. Each successful appendEmptyBlock
increments the handle's totalNumPages by exactly one, so the C guard
`totalNumPages < numberOfPages` runs the body exactly
`numberOfPages - totalNumPages` times; that count is the fuel here. -/
def ensureCapacityGo : Nat → SM_FileHandle → Disk →
    RC × SM_FileHandle × Disk
  | 0, fh, d => (RC_OK, fh, d)
  | Nat.succ n, fh, d =>
    match appendEmptyBlock fh d with
    | (RC_OK, fh', d') => ensureCapacityGo n fh' d'
    | r => r

/-- ensureCapacity (storage_mgr.c): checks the file opens, then appends
zero pages until the handle records at least `numberOfPages` pages. -/
def ensureCapacity (numberOfPages : Int) (fh : SM_FileHandle) (d : Disk) :
    RC × SM_FileHandle × Disk :=
  if ¬ d.openable then
    (RC_FILE_NOT_FOUND, fh, d)
  else if fh.totalNumPages ≥ numberOfPages then
    (RC_OK, fh, d)
  else
    ensureCapacityGo (numberOfPages - fh.totalNumPages).toNat fh d

/-- FrameInfo from buffer_mgr.h: one buffer-pool slot. `data = none` models
a NULL buffer pointer. The unused `index` field of the C struct is kept for
fidelity. -/
structure FrameInfo where
  pageNumber : Int
  dirtybit : Bool
  accessCount : Int
  secondChance : Bool
  recentHit : Int
  index : Int
  data : Option Page
deriving DecidableEq, Repr

/-- BufferPoolInfo from buffer_mgr.h: the pool's management data. -/
structure BufferPoolInfo where
  frames : List FrameInfo
  readCount : Int
  writeCount : Int
  recentHitCount : Int
  frameIndex : Int
  clockPointer : Int
  bufferSize : Int
deriving DecidableEq, Repr

/-- Replacement strategies the pool dispatches on. -/
inductive ReplacementStrategy where
  | RS_FIFO
  | RS_LRU
  | RS_CLOCK
deriving DecidableEq, Repr

export ReplacementStrategy (RS_FIFO RS_LRU RS_CLOCK)

/-- BM_BufferPool with its mgmtData inlined (the model only treats live,
initialized pools, so mgmtData is never NULL). The page file name is
represented by the `Disk` each operation takes. -/
structure BM_BufferPool where
  numPages : Int
  strategy : ReplacementStrategy
  poolInfo : BufferPoolInfo
deriving DecidableEq, Repr

/-- A freshly initialized frame, as the init loop of initBufferPool writes
it. -/
def emptyFrame : FrameInfo :=
  { pageNumber := NO_PAGE, dirtybit := false, accessCount := 0,
    secondChance := false, recentHit := 0, index := 0, data := none }

/-- initBufferPool (buffer_mgr.c): rejects a non-positive capacity with
RC_ERROR, otherwise builds a pool of `numPages` empty frames with all
counters and cursors at zero (allocation is assumed to succeed). -/
def initBufferPool (numPages : Int) (strategy : ReplacementStrategy) :
    RC × Option BM_BufferPool :=
  if numPages ≤ 0 then (RC_ERROR, none)
  else
    (RC_OK, some
      { numPages := numPages, strategy := strategy,
        poolInfo :=
          { frames := List.replicate numPages.toNat emptyFrame,
            readCount := 0, writeCount := 0, recentHitCount := 0,
            frameIndex := 0, clockPointer := 0, bufferSize := numPages } })

/-- The frame-array traversal of unpinPage: find the first frame holding
`pageNum`; decrement its accessCount only when positive; stop there. -/
def unpinFrames : List FrameInfo → Int → List FrameInfo
  | [], _ => []
  | f :: fs, p =>
    if f.pageNumber = p then
      (if f.accessCount > 0 then { f with accessCount := f.accessCount - 1 }
       else f) :: fs
    else f :: unpinFrames fs p

/-- unpinPage (buffer_mgr.c): decrement the pin count of the resident frame
when positive; always succeeds, a no-op when the page is not resident. The
disk is not an argument: unpinPage performs no I/O. -/
def unpinPage (bm : BM_BufferPool) (pageNum : Int) : RC × BM_BufferPool :=
  (RC_OK,
   { bm with poolInfo :=
      { bm.poolInfo with
          frames := unpinFrames bm.poolInfo.frames pageNum } })

/-- The frame-array traversal of markDirty: set dirtybit on the first frame
holding `pageNum`; report whether one was found. -/
def markDirtyFrames : List FrameInfo → Int → Option (List FrameInfo)
  | [], _ => none
  | f :: fs, p =>
    if f.pageNumber = p then some ({ f with dirtybit := true } :: fs)
    else (markDirtyFrames fs p).map (f :: ·)

/-- markDirty (buffer_mgr.c): mark the resident frame dirty, RC_ERROR when
the page is not resident. -/
def markDirty (bm : BM_BufferPool) (pageNum : Int) : RC × BM_BufferPool :=
  match markDirtyFrames bm.poolInfo.frames pageNum with
  | some fs =>
    (RC_OK, { bm with poolInfo := { bm.poolInfo with frames := fs } })
  | none => (RC_ERROR, bm)

/-- The flush loop of forceFlushPool over the frame array, threading the
file handle and disk. Returns the result code, the updated frames, the
disk, and how many frames were flushed (each one bumped writeCount in the
source). On the first failing writeBlock it stops, leaving that frame and
all later ones untouched. -/
def flushFrames : List FrameInfo → SM_FileHandle → Disk →
    RC × List FrameInfo × Disk × Int
  | [], _, d => (RC_OK, [], d, 0)
  | f :: fs, fh, d =>
    if f.dirtybit ∧ f.accessCount = 0 then
      match writeBlock f.pageNumber fh f.data d with
      | (RC_OK, fh', d') =>
        let r := flushFrames fs fh' d'
        (r.1, { f with dirtybit := false } :: r.2.1, r.2.2.1, r.2.2.2 + 1)
      | (_, _, d') => (RC_WRITE_FAILED, f :: fs, d', 0)
    else
      let r := flushFrames fs fh d
      (r.1, f :: r.2.1, r.2.2.1, r.2.2.2)

/-- forceFlushPool (buffer_mgr.c): open the page file, then write every
dirty unpinned frame in index order, clearing its dirty bit and counting a
write; stop at the first write failure with RC_WRITE_FAILED. -/
def forceFlushPool (bm : BM_BufferPool) (d : Disk) :
    RC × BM_BufferPool × Disk :=
  match openPageFile d with
  | Except.error _ => (RC_FILE_NOT_FOUND, bm, d)
  | Except.ok fh =>
    let r := flushFrames bm.poolInfo.frames fh d
    (r.1,
     { bm with poolInfo :=
        { bm.poolInfo with
            frames := r.2.1,
            writeCount := bm.poolInfo.writeCount + r.2.2.2 } },
     r.2.2.1)

/-- The find-and-write loop of forcePage: locate the first frame holding
`pageNum`, write it out (failing fast on a failed write, leaving the frame
untouched), clear its dirty bit and stop. `none` when not resident. -/
def forcePageFrames : List FrameInfo → Int → SM_FileHandle → Disk →
    Option (RC × List FrameInfo × Disk)
  | [], _, _, _ => none
  | f :: fs, p, fh, d =>
    if f.pageNumber = p then
      match writeBlock f.pageNumber fh f.data d with
      | (RC_OK, _, d') => some (RC_OK, { f with dirtybit := false } :: fs, d')
      | (_, _, d') => some (RC_WRITE_FAILED, f :: fs, d')
    else
      (forcePageFrames fs p fh d).map fun r => (r.1, f :: r.2.1, r.2.2)

/-- forcePage (buffer_mgr.c): open the page file; if the page is resident,
write that frame to disk, clear its dirty bit and count a write; succeed
without any write when the page is not resident. -/
def forcePage (bm : BM_BufferPool) (pageNum : Int) (d : Disk) :
    RC × BM_BufferPool × Disk :=
  match openPageFile d with
  | Except.error _ => (RC_FILE_NOT_FOUND, bm, d)
  | Except.ok fh =>
    match forcePageFrames bm.poolInfo.frames pageNum fh d with
    | none => (RC_OK, bm, d)
    | some (RC_OK, fs, d') =>
      (RC_OK,
       { bm with poolInfo :=
          { bm.poolInfo with
              frames := fs,
              writeCount := bm.poolInfo.writeCount + 1 } },
       d')
    | some (rc, fs, d') =>
      (rc,
       { bm with poolInfo := { bm.poolInfo with frames := fs } },
       d')

/-- The dirty-victim write shared by all three strategies: if the victim is
dirty, open the page file and, when that succeeds, write the victim's
buffer to its page slot (the writeBlock result itself is ignored, as in the
source) and count one write. Returns the disk and whether writeCount is to
be incremented. -/
def evictWrite (f : FrameInfo) (d : Disk) : Disk × Bool :=
  if f.dirtybit then
    match openPageFile d with
    | Except.ok fh => ((writeBlock f.pageNumber fh f.data d).2.2, true)
    | Except.error _ => (d, false)
  else (d, false)

/-- The victim frame after replacement under FIFO: data, page number, dirty
bit and pin count come from the incoming frame; all other fields of the old
frame are left as they were (the source copies only these four). -/
def replaceFrameFIFO (old page : FrameInfo) : FrameInfo :=
  { old with
      data := page.data, pageNumber := page.pageNumber,
      dirtybit := page.dirtybit, accessCount := page.accessCount }

/-- The FIFO scan loop, fuelled by the remaining attempts (bufferSize in
the source). Reads the cursor, replaces the frame there when unpinned
(writing it out first when dirty) and advances the cursor; otherwise just
advances and retries. The third component reports which frame was
replaced. -/
def FIFO_go (page : FrameInfo) : Nat → BufferPoolInfo → Disk →
    BufferPoolInfo × Disk × Option Nat
  | 0, p, d => (p, d, none)
  | Nat.succ n, p, d =>
    let idx := p.frameIndex.toNat
    match p.frames[idx]? with
    | none => (p, d, none)
    | some f =>
      if f.accessCount = 0 then
        let w := evictWrite f d
        ({ p with
            frames := p.frames.set idx (replaceFrameFIFO f page),
            writeCount := p.writeCount + (if w.2 then 1 else 0),
            frameIndex := (p.frameIndex + 1) % p.bufferSize },
         w.1, some idx)
      else
        FIFO_go page n
          { p with frameIndex := (p.frameIndex + 1) % p.bufferSize } d

/-- FIFO (buffer_mgr.c): up to bufferSize attempts of the cursor scan. -/
def FIFO (p : BufferPoolInfo) (d : Disk) (page : FrameInfo) :
    BufferPoolInfo × Disk × Option Nat :=
  FIFO_go page p.bufferSize.toNat p d

/-- The LRU selection scan: over the frames (with running index), keep the
first unpinned frame whose recentHit is strictly below the best so far,
starting from `recentHitCount + 1`. Returns the chosen index and frame. -/
def LRU_scan : List FrameInfo → Nat → Option (Nat × FrameInfo) → Int →
    Option (Nat × FrameInfo)
  | [], _, best, _ => best
  | f :: fs, i, best, least =>
    if f.accessCount = 0 ∧ f.recentHit < least then
      LRU_scan fs (i + 1) (some (i, f)) f.recentHit
    else
      LRU_scan fs (i + 1) best least

/-- The victim frame after replacement under LRU: like FIFO but recentHit
is copied from the incoming frame as well. -/
def replaceFrameLRU (old page : FrameInfo) : FrameInfo :=
  { old with
      data := page.data, pageNumber := page.pageNumber,
      dirtybit := page.dirtybit, accessCount := page.accessCount,
      recentHit := page.recentHit }

/-- LRU (buffer_mgr.c): pick the unpinned frame with the least recentHit
(ties to the lowest index); do nothing when every frame is pinned; write
the victim out first when dirty. No cursor is involved. -/
def LRU (p : BufferPoolInfo) (d : Disk) (page : FrameInfo) :
    BufferPoolInfo × Disk × Option Nat :=
  match LRU_scan p.frames 0 none (p.recentHitCount + 1) with
  | none => (p, d, none)
  | some (idx, f) =>
    let w := evictWrite f d
    ({ p with
        frames := p.frames.set idx (replaceFrameLRU f page),
        writeCount := p.writeCount + (if w.2 then 1 else 0) },
     w.1, some idx)

/-- The victim frame after replacement under CLOCK: like FIFO but the
reference bit is explicitly cleared. -/
def replaceFrameCLOCK (old page : FrameInfo) : FrameInfo :=
  { old with
      data := page.data, pageNumber := page.pageNumber,
      dirtybit := page.dirtybit, accessCount := page.accessCount,
      secondChance := false }

/-- The CLOCK sweep, fuelled by the remaining attempts (2 * bufferSize in
the source): an unpinned frame with a clear reference bit is the victim;
an unpinned frame with the bit set has it cleared; a pinned frame is
passed over untouched; the hand advances every step. -/
def CLOCK_go (page : FrameInfo) : Nat → BufferPoolInfo → Disk →
    BufferPoolInfo × Disk × Option Nat
  | 0, p, d => (p, d, none)
  | Nat.succ n, p, d =>
    let idx := p.clockPointer.toNat
    match p.frames[idx]? with
    | none => (p, d, none)
    | some f =>
      if f.accessCount = 0 then
        if f.secondChance = false then
          let w := evictWrite f d
          ({ p with
              frames := p.frames.set idx (replaceFrameCLOCK f page),
              writeCount := p.writeCount + (if w.2 then 1 else 0),
              clockPointer := (p.clockPointer + 1) % p.bufferSize },
           w.1, some idx)
        else
          CLOCK_go page n
            { p with
                frames := p.frames.set idx { f with secondChance := false },
                clockPointer := (p.clockPointer + 1) % p.bufferSize } d
      else
        CLOCK_go page n
          { p with clockPointer := (p.clockPointer + 1) % p.bufferSize } d

/-- CLOCK (buffer_mgr.c): the sweep with a 2 * bufferSize attempt budget. -/
def CLOCK (p : BufferPoolInfo) (d : Disk) (page : FrameInfo) :
    BufferPoolInfo × Disk × Option Nat :=
  CLOCK_go page (2 * p.bufferSize).toNat p d

/-- The strategy dispatch of pinPage's replacement path. -/
def applyStrategy : ReplacementStrategy → BufferPoolInfo → Disk →
    FrameInfo → BufferPoolInfo × Disk × Option Nat
  | RS_FIFO, p, d, page => FIFO p d page
  | RS_LRU, p, d, page => LRU p d page
  | RS_CLOCK, p, d, page => CLOCK p d page

/-- The hit scan of pinPage: find the first frame holding `pageNum`, bump
its pin count, and apply the per-strategy metadata update (`rhc` is the
recentHitCount value after its increment). -/
def pinHitFrames (strat : ReplacementStrategy) (rhc : Int) :
    List FrameInfo → Int → Option (List FrameInfo)
  | [], _ => none
  | f :: fs, p =>
    if f.pageNumber = p then
      let f1 := { f with accessCount := f.accessCount + 1 }
      let f2 := match strat with
        | RS_CLOCK => { f1 with secondChance := true }
        | RS_LRU => { f1 with recentHit := rhc }
        | RS_FIFO => f1
      some (f2 :: fs)
    else
      (pinHitFrames strat rhc fs p).map (f :: ·)

/-- The empty-frame scan of pinPage: the first frame holding NO_PAGE,
together with its index. -/
def findEmpty : List FrameInfo → Option (Nat × FrameInfo)
  | [] => none
  | f :: fs =>
    if f.pageNumber = NO_PAGE then some (0, f)
    else (findEmpty fs).map fun r => (r.1 + 1, r.2)

/-- pinPage (buffer_mgr.c). Open the page file (failing with
RC_FILE_NOT_FOUND even for a would-be hit). On a hit, bump the pin count
and metadata. On a miss, grow the file to cover `pageNum` (result ignored,
as in the source) and read the page; a failed read reports
RC_READ_NON_EXISTING_PAGE and leaves the pool unchanged (the file may have
grown). A successful read either fills the first empty frame or builds the
incoming frame and dispatches to the replacement strategy — whose outcome
is ignored: pinPage returns RC_OK even when the strategy found no victim.
The C page-handle out-parameter carries no pool state and is omitted. -/
def pinPage (bm : BM_BufferPool) (pageNum : Int) (d : Disk) :
    RC × BM_BufferPool × Disk :=
  match openPageFile d with
  | Except.error _ => (RC_FILE_NOT_FOUND, bm, d)
  | Except.ok fh =>
    let p := bm.poolInfo
    match pinHitFrames bm.strategy (p.recentHitCount + 1) p.frames pageNum with
    | some fs' =>
      (RC_OK,
       { bm with poolInfo :=
          { p with
              frames := fs',
              recentHitCount := p.recentHitCount + 1 } }, d)
    | none =>
      match findEmpty p.frames with
      | some (i, f) =>
        let ec := ensureCapacity (pageNum + 1) fh d
        match readBlock pageNum ec.2.1 ec.2.2 with
        | (RC_OK, _, some pg) =>
          let f' : FrameInfo :=
            { pageNumber := pageNum, accessCount := 1, dirtybit := false,
              index := 0, data := some pg,
              secondChance :=
                if bm.strategy = RS_CLOCK then false else f.secondChance,
              recentHit :=
                if bm.strategy = RS_LRU then p.recentHitCount + 1
                else f.recentHit }
          (RC_OK,
           { bm with poolInfo :=
              { p with
                  frames := p.frames.set i f',
                  readCount := p.readCount + 1,
                  recentHitCount := p.recentHitCount + 1 } }, ec.2.2)
        | _ => (RC_READ_NON_EXISTING_PAGE, bm, ec.2.2)
      | none =>
        let ec := ensureCapacity (pageNum + 1) fh d
        match readBlock pageNum ec.2.1 ec.2.2 with
        | (RC_OK, _, some pg) =>
          let rhc := p.recentHitCount + 1
          -- the C newFrame's secondChance and recentHit are uninitialized
          -- malloc memory unless the strategy sets them; neither is ever
          -- read in that case, so defaults stand in for the garbage
          let newFrame : FrameInfo :=
            { pageNumber := pageNum, accessCount := 1, dirtybit := false,
              index := 0, data := some pg,
              secondChance := false,
              recentHit := if bm.strategy = RS_LRU then rhc else 0 }
          let p1 := { p with
                        readCount := p.readCount + 1,
                        recentHitCount := rhc }
          let r := applyStrategy bm.strategy p1 ec.2.2 newFrame
          (RC_OK, { bm with poolInfo := r.1 }, r.2.1)
        | _ => (RC_READ_NON_EXISTING_PAGE, bm, ec.2.2)

/-! ## Theorems -/

/-- The page file immediately after createPageFile: one zero page. -/
def seedDisk : Disk := { openable := true, pages := [zeroPage], failWrites := [] }

/-- The FIFO seed scenario of the spec: init (FIFO, capacity 3), pin pages
1, 2, 3, unpin each, then pin page 4; observe the frame page numbers and
the FIFO cursor. -/
def fifoScenario : Option (List Int × Int) :=
  ((initBufferPool 3 RS_FIFO).2).map fun bm =>
    let s1 := pinPage bm 1 seedDisk
    let s2 := pinPage s1.2.1 2 s1.2.2
    let s3 := pinPage s2.2.1 3 s2.2.2
    let s4 := unpinPage s3.2.1 1
    let s5 := unpinPage s4.2 2
    let s6 := unpinPage s5.2 3
    let s7 := pinPage s6.2 4 s3.2.2
    (s7.2.1.poolInfo.frames.map (·.pageNumber), s7.2.1.poolInfo.frameIndex)

/-- C7: starting from a fresh FIFO pool of capacity 3, pinning pages 1, 2,
3, unpinning each, then pinning page 4 leaves frame contents 4, 2, 3 (page
1 evicted from frame 0) with the FIFO cursor at index 1. -/
theorem fifo_eviction_scenario : fifoScenario = some ([4, 2, 3], 1) := by
  decide

/-- The all-pinned scenario: init (FIFO, capacity 1), pin page 0 and keep
it pinned, then pin page 1 (not resident, no evictable frame); observe the
result code of that pin, the frame page numbers and the pin counts. -/
def allPinnedScenario : Option (RC × List Int × List Int) :=
  ((initBufferPool 1 RS_FIFO).2).map fun bm =>
    let s1 := pinPage bm 0 seedDisk
    let s2 := pinPage s1.2.1 1 s1.2.2
    (s2.1, s2.2.1.poolInfo.frames.map (·.pageNumber),
     s2.2.1.poolInfo.frames.map (·.accessCount))

/-- C1: evaluation at the failing input. With every frame pinned, pinning a
non-resident page returns RC_OK — the frame still holds page 0 pinned once,
page 1 was never installed, and no error is reported, contradicting the
required "no victim available" failure. -/
theorem pinPage_allPinned_silent_success :
    allPinnedScenario = some (RC_OK, [0], [1]) := by
  decide

/-- C8: for a handle whose totalNumPages T matches the file (with the file
openable and the physical write at slot T succeeding), writeBlock accepts
page index T — one past the end — and grows the file to T + 1 pages, while
readBlock fails with RC_READ_NON_EXISTING_PAGE for every index n with
n < 0 or n ≥ T, including T itself. -/
theorem writeBlock_extends_readBlock_rejects
    (fh : SM_FileHandle) (d : Disk) (buf : Page)
    (hT : fh.totalNumPages = (d.pages.length : Int))
    (hopen : d.openable = true)
    (hfail : fh.totalNumPages ∉ d.failWrites) :
    (writeBlock fh.totalNumPages fh (some buf) d).1 = RC_OK ∧
    ((writeBlock fh.totalNumPages fh (some buf) d).2.2.pages.length : Int)
        = fh.totalNumPages + 1 ∧
    ∀ n : Int, n < 0 ∨ n ≥ fh.totalNumPages →
      (readBlock n fh d).1 = RC_READ_NON_EXISTING_PAGE := by
  have h0 : ¬ fh.totalNumPages < 0 := by rw [hT]; omega
  have h1 : ¬ ((d.pages.length : Int) < 0) := by omega
  have h2 : (d.pages.length : Int) ∉ d.failWrites := hT ▸ hfail
  refine ⟨?_, ?_, ?_⟩
  · simp [writeBlock, h0, hopen, hfail, hT, h1, h2]
  · simp [writeBlock, h0, hopen, hfail, setPage, hT, h1, h2]
  · intro n hn
    simp [readBlock, hn]

/-- Witness for C8 at a one-page openable file: writing slot 1 succeeds and
grows the file to two pages; reading slot 1 (and slot -1) is rejected. -/
theorem writeBlock_extends_readBlock_rejects_witness :
    (writeBlock 1 ⟨0, 1⟩ (some [7]) ⟨true, [[]], []⟩).1 = RC_OK ∧
    ((writeBlock 1 ⟨0, 1⟩ (some [7]) ⟨true, [[]], []⟩).2.2.pages.length : Int)
        = 2 ∧
    (readBlock 1 ⟨0, 1⟩ ⟨true, [[]], []⟩).1 = RC_READ_NON_EXISTING_PAGE := by
  have h := writeBlock_extends_readBlock_rejects ⟨0, 1⟩ ⟨true, [[]], []⟩ [7]
    (by decide) rfl (by decide)
  exact ⟨h.1, h.2.1, h.2.2 1 (Or.inr (by decide))⟩

/-- forcePage's search loop finds nothing when the page is resident in no
frame. -/
theorem forcePageFrames_not_resident (p : Int) (fh : SM_FileHandle)
    (d : Disk) :
    ∀ fs : List FrameInfo, (∀ f ∈ fs, f.pageNumber ≠ p) →
      forcePageFrames fs p fh d = none := by
  intro fs
  induction fs with
  | nil => intro _; rfl
  | cons f fs ih =>
    intro h
    have hf : ¬ f.pageNumber = p := h f (List.mem_cons_self f fs)
    have ht := ih fun g hg => h g (List.mem_cons_of_mem f hg)
    simp [forcePageFrames, hf, ht]

/-- C9: when the page file opens but the requested page is resident in no
frame, forcePage succeeds and changes nothing: no frame is touched, no
disk write happens, and writeCount stays put. -/
theorem forcePage_not_resident (bm : BM_BufferPool) (p : Int) (d : Disk)
    (hopen : d.openable = true)
    (habs : ∀ f ∈ bm.poolInfo.frames, f.pageNumber ≠ p) :
    forcePage bm p d = (RC_OK, bm, d) := by
  simp [forcePage, openPageFile, hopen,
    forcePageFrames_not_resident p _ d bm.poolInfo.frames habs]

/-- Witness for C9: a pool holding only page 0, asked to force page 5. -/
theorem forcePage_not_resident_witness :
    forcePage
      { numPages := 1, strategy := RS_FIFO,
        poolInfo :=
          { frames := [{ pageNumber := 0, dirtybit := true, accessCount := 0,
                         secondChance := false, recentHit := 0, index := 0,
                         data := some [3] }],
            readCount := 1, writeCount := 0, recentHitCount := 1,
            frameIndex := 0, clockPointer := 0, bufferSize := 1 } }
      5 ⟨true, [[3]], []⟩
    = (RC_OK,
       { numPages := 1, strategy := RS_FIFO,
         poolInfo :=
           { frames := [{ pageNumber := 0, dirtybit := true, accessCount := 0,
                          secondChance := false, recentHit := 0, index := 0,
                          data := some [3] }],
             readCount := 1, writeCount := 0, recentHitCount := 1,
             frameIndex := 0, clockPointer := 0, bufferSize := 1 } },
       ⟨true, [[3]], []⟩) := by
  exact forcePage_not_resident _ 5 _ rfl (by decide)

/-- C10: pinPage opens the page file before looking for a hit, so even when
the requested page is resident it fails with RC_FILE_NOT_FOUND — changing
nothing — whenever the file cannot be opened. -/
theorem pinPage_hit_requires_openable (bm : BM_BufferPool) (p : Int)
    (d : Disk) (i : Nat) (f : FrameInfo)
    (hres : bm.poolInfo.frames[i]? = some f) (hpn : f.pageNumber = p)
    (hopen : d.openable = false) :
    pinPage bm p d = (RC_FILE_NOT_FOUND, bm, d) := by
  simp [pinPage, openPageFile, hopen]

/-- Witness for C10: page 3 is resident in frame 0 but the file is not
openable; the pin fails with RC_FILE_NOT_FOUND and changes nothing. -/
theorem pinPage_hit_requires_openable_witness :
    pinPage
      { numPages := 1, strategy := RS_LRU,
        poolInfo :=
          { frames := [{ pageNumber := 3, dirtybit := false, accessCount := 0,
                         secondChance := false, recentHit := 1, index := 0,
                         data := some [] }],
            readCount := 1, writeCount := 0, recentHitCount := 1,
            frameIndex := 0, clockPointer := 0, bufferSize := 1 } }
      3 ⟨false, [[], [], [], []], []⟩
    = (RC_FILE_NOT_FOUND,
       { numPages := 1, strategy := RS_LRU,
         poolInfo :=
           { frames := [{ pageNumber := 3, dirtybit := false, accessCount := 0,
                          secondChance := false, recentHit := 1, index := 0,
                          data := some [] }],
             readCount := 1, writeCount := 0, recentHitCount := 1,
             frameIndex := 0, clockPointer := 0, bufferSize := 1 } },
       ⟨false, [[], [], [], []], []⟩) := by
  exact pinPage_hit_requires_openable _ 3 _ 0 _ rfl rfl rfl

/-- unpinPage's traversal leaves the frame list untouched when the page is
resident in no frame. -/
theorem unpinFrames_not_resident (p : Int) :
    ∀ fs : List FrameInfo, (∀ f ∈ fs, f.pageNumber ≠ p) →
      unpinFrames fs p = fs := by
  intro fs
  induction fs with
  | nil => intro _; rfl
  | cons f fs ih =>
    intro h
    have hf : ¬ f.pageNumber = p := h f (List.mem_cons_self f fs)
    simp [unpinFrames, hf, ih fun g hg => h g (List.mem_cons_of_mem f hg)]

/-- Every slot of unpinPage's traversal is either exactly the old frame or
the old frame with a positive pin count decremented by one (for the frame
that held the page). -/
theorem unpinFrames_cases (p : Int) :
    ∀ (fs : List FrameInfo) (j : Nat),
      (unpinFrames fs p)[j]? = fs[j]? ∨
      ∃ f, fs[j]? = some f ∧ f.pageNumber = p ∧ f.accessCount > 0 ∧
        (unpinFrames fs p)[j]? =
          some { f with accessCount := f.accessCount - 1 } := by
  intro fs
  induction fs with
  | nil => intro j; left; rfl
  | cons f fs ih =>
    intro j
    by_cases hf : f.pageNumber = p
    · by_cases ha : f.accessCount > 0
      · cases j with
        | zero =>
          right; exact ⟨f, by simp, hf, ha, by simp [unpinFrames, hf, ha]⟩
        | succ j => left; simp [unpinFrames, hf]
      · cases j with
        | zero => left; simp [unpinFrames, hf, ha]
        | succ j => left; simp [unpinFrames, hf]
    · cases j with
      | zero => left; simp [unpinFrames, hf]
      | succ j =>
        rcases ih j with h | ⟨g, hg, hgp, hga, hg'⟩
        · left; simpa [unpinFrames, hf] using h
        · right; exact ⟨g, by simpa using hg, hgp, hga,
            by simpa [unpinFrames, hf] using hg'⟩

/-- The first frame holding the page is decremented when its pin count is
positive and left alone otherwise. -/
theorem unpinFrames_first (p : Int) :
    ∀ (fs : List FrameInfo) (j : Nat) (f : FrameInfo),
      fs[j]? = some f → f.pageNumber = p →
      (∀ k g, k < j → fs[k]? = some g → g.pageNumber ≠ p) →
      (unpinFrames fs p)[j]? =
        some { f with accessCount :=
          if f.accessCount > 0 then f.accessCount - 1
          else f.accessCount } := by
  intro fs
  induction fs with
  | nil => intro j f hj; simp at hj
  | cons f0 fs ih =>
    intro j f hj hfp hfirst
    cases j with
    | zero =>
      have hf0 : f0 = f := by simpa using hj
      subst hf0
      by_cases ha : f0.accessCount > 0
      · simp [unpinFrames, hfp, ha]
      · simp [unpinFrames, hfp, ha]
        rw [← hfp]
    | succ j =>
      have h0 : f0.pageNumber ≠ p :=
        hfirst 0 f0 (Nat.succ_pos j) (by simp)
      have := ih j f (by simpa using hj) hfp
        (fun k g hk hkg => hfirst (k + 1) g (Nat.succ_lt_succ hk)
          (by simpa using hkg))
      simpa [unpinFrames, h0] using this

/-- C4: unpinPage always returns RC_OK; every frame either stays exactly as
it was or has a positive pin count decremented by one; a pin count of zero
stays zero (never negative); the first frame resident for the page is
decremented exactly when its count is positive; when the page is not
resident the whole pool is unchanged; and nothing else in the pool — in
particular no dirty flag and not writeCount — moves. unpinPage takes no
disk at all: it performs no disk write. -/
theorem unpinPage_spec (bm : BM_BufferPool) (p : Int) :
    (unpinPage bm p).1 = RC_OK ∧
    (∀ j : Nat,
      (unpinPage bm p).2.poolInfo.frames[j]? = bm.poolInfo.frames[j]? ∨
      ∃ f : FrameInfo,
        bm.poolInfo.frames[j]? = some f ∧ f.pageNumber = p ∧
        f.accessCount > 0 ∧
        (unpinPage bm p).2.poolInfo.frames[j]? =
          some { f with accessCount := f.accessCount - 1 }) ∧
    ((∀ f ∈ bm.poolInfo.frames, f.pageNumber ≠ p) →
      (unpinPage bm p).2 = bm) ∧
    (∀ (j : Nat) (f : FrameInfo),
      bm.poolInfo.frames[j]? = some f → f.pageNumber = p →
      (∀ (k : Nat) (g : FrameInfo),
        k < j → bm.poolInfo.frames[k]? = some g → g.pageNumber ≠ p) →
      (unpinPage bm p).2.poolInfo.frames[j]? =
        some { f with accessCount :=
          if f.accessCount > 0 then f.accessCount - 1
          else f.accessCount }) ∧
    (unpinPage bm p).2.poolInfo.frames.map (·.dirtybit)
        = bm.poolInfo.frames.map (·.dirtybit) ∧
    (unpinPage bm p).2.poolInfo.writeCount = bm.poolInfo.writeCount := by
  refine ⟨rfl, ?_, ?_, ?_, ?_, rfl⟩
  · intro j; exact unpinFrames_cases p bm.poolInfo.frames j
  · intro h
    show { bm with poolInfo :=
      { bm.poolInfo with
          frames := unpinFrames bm.poolInfo.frames p } } = bm
    rw [unpinFrames_not_resident p bm.poolInfo.frames h]
  · intro j f hj hfp hfirst
    exact unpinFrames_first p bm.poolInfo.frames j f hj hfp hfirst
  · apply List.ext_getElem?
    intro j
    simp only [List.getElem?_map]
    rcases unpinFrames_cases p bm.poolInfo.frames j with h | ⟨f, hf, _, _, h⟩
    · rw [show (unpinPage bm p).2.poolInfo.frames
          = unpinFrames bm.poolInfo.frames p from rfl, h]
    · rw [show (unpinPage bm p).2.poolInfo.frames
          = unpinFrames bm.poolInfo.frames p from rfl, h, hf]
      simp

/-- Clearing the reference bit changes nothing about the dirty write a
later eviction of the frame performs. -/
theorem evictWrite_secondChance (f : FrameInfo) (d : Disk) :
    evictWrite { f with secondChance := false } d = evictWrite f d := by
  simp [evictWrite]

/-- When the FIFO scan reports a victim, that frame was unpinned in the
pool the scan started from, the disk change is exactly the dirty-victim
write for it, and writeCount grew by one exactly when that write was
counted. -/
theorem FIFO_go_victim (page : FrameInfo) :
    ∀ (n : Nat) (p : BufferPoolInfo) (d : Disk) (p' : BufferPoolInfo)
      (d' : Disk) (i : Nat),
      FIFO_go page n p d = (p', d', some i) →
      ∃ f, p.frames[i]? = some f ∧ f.accessCount = 0 ∧
        d' = (evictWrite f d).1 ∧
        p'.writeCount = p.writeCount +
          (if (evictWrite f d).2 then 1 else 0) := by
  intro n
  induction n with
  | zero => intro p d p' d' i h; simp [FIFO_go] at h
  | succ n ih =>
    intro p d p' d' i h
    rw [FIFO_go] at h
    split at h
    · simp at h
    · next f hidx =>
      split at h
      · next ha =>
        simp only [Prod.mk.injEq, Option.some.injEq] at h
        obtain ⟨h1, h2, h3⟩ := h
        subst h3
        refine ⟨f, hidx, ha, h2.symm, ?_⟩
        rw [← h1]
      · next ha =>
        exact ih { p with frameIndex := (p.frameIndex + 1) % p.bufferSize }
          d p' d' i h

/-- When the CLOCK sweep reports a victim, that frame was unpinned in the
pool the sweep started from (the sweep only ever clears reference bits on
the way), the disk change is exactly the dirty-victim write for it, and
writeCount grew accordingly. -/
theorem CLOCK_go_victim (page : FrameInfo) :
    ∀ (n : Nat) (p : BufferPoolInfo) (d : Disk) (p' : BufferPoolInfo)
      (d' : Disk) (i : Nat),
      CLOCK_go page n p d = (p', d', some i) →
      ∃ f, p.frames[i]? = some f ∧ f.accessCount = 0 ∧
        d' = (evictWrite f d).1 ∧
        p'.writeCount = p.writeCount +
          (if (evictWrite f d).2 then 1 else 0) := by
  intro n
  induction n with
  | zero => intro p d p' d' i h; simp [CLOCK_go] at h
  | succ n ih =>
    intro p d p' d' i h
    rw [CLOCK_go] at h
    split at h
    · simp at h
    · next f hidx =>
      split at h
      · next ha =>
        split at h
        · next hs =>
          simp only [Prod.mk.injEq, Option.some.injEq] at h
          obtain ⟨h1, h2, h3⟩ := h
          subst h3
          refine ⟨f, hidx, ha, h2.symm, ?_⟩
          rw [← h1]
        · next hs =>
          obtain ⟨f', hf', ha', hd', hw'⟩ :=
            ih { p with
                  frames := p.frames.set p.clockPointer.toNat
                    { f with secondChance := false },
                  clockPointer := (p.clockPointer + 1) % p.bufferSize }
              d p' d' i h
          have hlen : p.clockPointer.toNat < p.frames.length :=
            (List.getElem?_eq_some_iff.mp hidx).1
          by_cases hi : i = p.clockPointer.toNat
          · subst hi
            rw [show ({ p with
                  frames := p.frames.set p.clockPointer.toNat
                    { f with secondChance := false },
                  clockPointer :=
                    (p.clockPointer + 1) % p.bufferSize } :
                BufferPoolInfo).frames
              = p.frames.set p.clockPointer.toNat
                  { f with secondChance := false } from rfl,
              List.getElem?_set_eq_of_lt _ hlen] at hf'
            obtain rfl : { f with secondChance := false } = f' :=
              Option.some.injEq .. |>.mp hf'
            exact ⟨f, hidx, ha,
              by rw [hd', evictWrite_secondChance],
              by rw [hw', evictWrite_secondChance]⟩
          · rw [show ({ p with
                  frames := p.frames.set p.clockPointer.toNat
                    { f with secondChance := false },
                  clockPointer :=
                    (p.clockPointer + 1) % p.bufferSize } :
                BufferPoolInfo).frames
              = p.frames.set p.clockPointer.toNat
                  { f with secondChance := false } from rfl,
              List.getElem?_set_ne (fun hne => hi hne.symm)] at hf'
            exact ⟨f', hf', ha', hd', hw'⟩
      · next ha =>
        exact ih
          { p with clockPointer := (p.clockPointer + 1) % p.bufferSize }
          d p' d' i h

/-- The LRU selection scan only ever returns a pair that either was the
incoming best candidate or is an unpinned frame of the list at the
reported offset. -/
theorem LRU_scan_post :
    ∀ (fs : List FrameInfo) (i0 : Nat) (best : Option (Nat × FrameInfo))
      (least : Int) (j : Nat) (f : FrameInfo),
      LRU_scan fs i0 best least = some (j, f) →
      best = some (j, f) ∨
      ∃ k : Nat, j = i0 + k ∧ fs[k]? = some f ∧ f.accessCount = 0 := by
  intro fs
  induction fs with
  | nil => intro i0 best least j f h; left; exact h
  | cons g gs ih =>
    intro i0 best least j f h
    rw [LRU_scan] at h
    by_cases hc : g.accessCount = 0 ∧ g.recentHit < least
    · rw [if_pos hc] at h
      rcases ih _ _ _ _ _ h with h' | ⟨k, hk, hkf, hka⟩
      · obtain ⟨rfl, rfl⟩ : i0 = j ∧ g = f := by
          simpa using h'
        right; exact ⟨0, by omega, by simp, hc.1⟩
      · right; exact ⟨k + 1, by omega, by simpa using hkf, hka⟩
    · rw [if_neg hc] at h
      rcases ih _ _ _ _ _ h with h' | ⟨k, hk, hkf, hka⟩
      · left; exact h'
      · right; exact ⟨k + 1, by omega, by simpa using hkf, hka⟩

/-- When LRU reports a victim, that frame was unpinned, and disk and
writeCount moved exactly by the dirty-victim write. -/
theorem LRU_victim (p : BufferPoolInfo) (d : Disk) (page : FrameInfo)
    (p' : BufferPoolInfo) (d' : Disk) (i : Nat)
    (h : LRU p d page = (p', d', some i)) :
    ∃ f, p.frames[i]? = some f ∧ f.accessCount = 0 ∧
      d' = (evictWrite f d).1 ∧
      p'.writeCount = p.writeCount +
        (if (evictWrite f d).2 then 1 else 0) := by
  rw [LRU] at h
  cases hscan : LRU_scan p.frames 0 none (p.recentHitCount + 1) with
  | none => rw [hscan] at h; simp at h
  | some r =>
    obtain ⟨idx, f⟩ := r
    rw [hscan] at h
    simp only [Prod.mk.injEq, Option.some.injEq] at h
    obtain ⟨h1, h2, h3⟩ := h
    subst h3
    rcases LRU_scan_post p.frames 0 none (p.recentHitCount + 1) idx f hscan
      with h' | ⟨k, hk, hkf, hka⟩
    · exact absurd h' (by simp)
    · obtain rfl : idx = k := by omega
      exact ⟨f, hkf, hka, h2.symm, by rw [← h1]⟩

/-- C2: under every strategy, whenever the replacement machinery of
pinPage replaces a frame, the frame chosen as victim had pin count zero in
the pool state just prior; a pinned frame is never evicted. -/
theorem strategy_victim_unpinned (strat : ReplacementStrategy)
    (p : BufferPoolInfo) (d : Disk) (page : FrameInfo)
    (p' : BufferPoolInfo) (d' : Disk) (i : Nat)
    (h : applyStrategy strat p d page = (p', d', some i)) :
    ∃ f, p.frames[i]? = some f ∧ f.accessCount = 0 := by
  cases strat with
  | RS_FIFO =>
    obtain ⟨f, hf, ha, -, -⟩ := FIFO_go_victim page _ p d p' d' i h
    exact ⟨f, hf, ha⟩
  | RS_LRU =>
    obtain ⟨f, hf, ha, -, -⟩ := LRU_victim p d page p' d' i h
    exact ⟨f, hf, ha⟩
  | RS_CLOCK =>
    obtain ⟨f, hf, ha, -, -⟩ := CLOCK_go_victim page _ p d p' d' i h
    exact ⟨f, hf, ha⟩

/-- Witness for C2: a two-frame FIFO pool with frame 0 pinned; the victim
is frame 1, which indeed has pin count zero. -/
theorem strategy_victim_unpinned_witness :
    ∃ f : FrameInfo,
      ([{ pageNumber := 5, dirtybit := false, accessCount := 1,
          secondChance := false, recentHit := 0, index := 0,
          data := some [] },
        { pageNumber := 6, dirtybit := false, accessCount := 0,
          secondChance := false, recentHit := 0, index := 0,
          data := some [] }] : List FrameInfo)[1]? = some f ∧
      f.accessCount = 0 :=
  strategy_victim_unpinned RS_FIFO
    { frames := [{ pageNumber := 5, dirtybit := false, accessCount := 1,
                   secondChance := false, recentHit := 0, index := 0,
                   data := some [] },
                 { pageNumber := 6, dirtybit := false, accessCount := 0,
                   secondChance := false, recentHit := 0, index := 0,
                   data := some [] }],
      readCount := 2, writeCount := 0, recentHitCount := 2,
      frameIndex := 0, clockPointer := 0, bufferSize := 2 }
    ⟨true, [[], [], [], [], [], [], []], []⟩
    { pageNumber := 2, dirtybit := false, accessCount := 1,
      secondChance := false, recentHit := 0, index := 0, data := some [] }
    { frames := [{ pageNumber := 5, dirtybit := false, accessCount := 1,
                   secondChance := false, recentHit := 0, index := 0,
                   data := some [] },
                 { pageNumber := 2, dirtybit := false, accessCount := 1,
                   secondChance := false, recentHit := 0, index := 0,
                   data := some [] }],
      readCount := 2, writeCount := 0, recentHitCount := 2,
      frameIndex := 0, clockPointer := 0, bufferSize := 2 }
    ⟨true, [[], [], [], [], [], [], []], []⟩
    1 (by decide)

/-- The dirty-victim write of the strategies really stores the victim's
buffer on disk and asks for the writeCount bump whenever the victim is
dirty, the file opens, the slot is in range and the physical write
succeeds. -/
theorem evictWrite_dirty (f : FrameInfo) (d : Disk) (buf : Page)
    (hdirty : f.dirtybit = true) (hopen : d.openable = true)
    (hdata : f.data = some buf) (h0 : 0 ≤ f.pageNumber)
    (hlt : f.pageNumber.toNat < d.pages.length)
    (hfail : f.pageNumber ∉ d.failWrites) :
    (evictWrite f d).1.pages[f.pageNumber.toNat]? = some buf ∧
    (evictWrite f d).2 = true := by
  have hb : ¬ (f.pageNumber < 0 ∨ f.pageNumber > (d.pages.length : Int)) := by
    omega
  have hs : f.pageNumber.toNat < d.pages.length := hlt
  constructor
  · simp only [evictWrite, hdirty, if_true, openPageFile, hopen,
      writeBlock, hdata, hb, if_false, hfail, setPage, hs, if_true]
    exact List.getElem?_set_eq_of_lt _ hs
  · simp [evictWrite, hdirty, openPageFile, hopen]

/-- Shared victim description: whichever strategy ran, a reported victim
was an unpinned frame of the starting pool, the disk moved exactly by the
dirty-victim write for it, and writeCount grew exactly when that write was
counted. -/
theorem applyStrategy_victim (strat : ReplacementStrategy)
    (p : BufferPoolInfo) (d : Disk) (page : FrameInfo)
    (p' : BufferPoolInfo) (d' : Disk) (i : Nat)
    (h : applyStrategy strat p d page = (p', d', some i)) :
    ∃ f, p.frames[i]? = some f ∧ f.accessCount = 0 ∧
      d' = (evictWrite f d).1 ∧
      p'.writeCount = p.writeCount +
        (if (evictWrite f d).2 then 1 else 0) := by
  cases strat with
  | RS_FIFO => exact FIFO_go_victim page _ p d p' d' i h
  | RS_LRU => exact LRU_victim p d page p' d' i h
  | RS_CLOCK => exact CLOCK_go_victim page _ p d p' d' i h

/-- C3: whenever pinPage's replacement machinery evicts a frame whose
dirty bit is set (with the page file openable — guaranteed on the pinPage
path — the slot in range and the physical write succeeding), the victim's
buffer is stored at its page slot on disk and writeCount grows by exactly
one; the dirty bytes are not discarded. -/
theorem strategy_dirty_victim_written (strat : ReplacementStrategy)
    (p : BufferPoolInfo) (d : Disk) (page : FrameInfo)
    (p' : BufferPoolInfo) (d' : Disk) (i : Nat) (f : FrameInfo) (buf : Page)
    (h : applyStrategy strat p d page = (p', d', some i))
    (hf : p.frames[i]? = some f)
    (hdirty : f.dirtybit = true)
    (hdata : f.data = some buf)
    (hopen : d.openable = true)
    (h0 : 0 ≤ f.pageNumber)
    (hlt : f.pageNumber.toNat < d.pages.length)
    (hfail : f.pageNumber ∉ d.failWrites) :
    d'.pages[f.pageNumber.toNat]? = some buf ∧
    p'.writeCount = p.writeCount + 1 := by
  obtain ⟨g, hg, hacc, hdisk, hw⟩ := applyStrategy_victim strat p d page p' d' i h
  obtain rfl : f = g := by rw [hf] at hg; exact Option.some.inj hg
  obtain ⟨hbuf, htrue⟩ :=
    evictWrite_dirty f d buf hdirty hopen hdata h0 hlt hfail
  refine ⟨by rw [hdisk]; exact hbuf, ?_⟩
  rw [hw, htrue]
  simp

/-- Witness for C3: a one-frame FIFO pool holding dirty page 0 with buffer
bytes 9; evicting it for page 1 stores those bytes at disk slot 0 and
bumps writeCount to one. -/
theorem strategy_dirty_victim_written_witness :
    (⟨true, [[9]], []⟩ : Disk).pages[(0 : Int).toNat]? = some [9] ∧
    (1 : Int) = 0 + 1 :=
  strategy_dirty_victim_written RS_FIFO
    { frames := [{ pageNumber := 0, dirtybit := true, accessCount := 0,
                   secondChance := false, recentHit := 0, index := 0,
                   data := some [9] }],
      readCount := 2, writeCount := 0, recentHitCount := 2,
      frameIndex := 0, clockPointer := 0, bufferSize := 1 }
    ⟨true, [[0]], []⟩
    { pageNumber := 1, dirtybit := false, accessCount := 1,
      secondChance := false, recentHit := 0, index := 0, data := some [4] }
    { frames := [{ pageNumber := 1, dirtybit := false, accessCount := 1,
                   secondChance := false, recentHit := 0, index := 0,
                   data := some [4] }],
      readCount := 2, writeCount := 1, recentHitCount := 2,
      frameIndex := 0, clockPointer := 0, bufferSize := 1 }
    ⟨true, [[9]], []⟩
    0
    { pageNumber := 0, dirtybit := true, accessCount := 0,
      secondChance := false, recentHit := 0, index := 0, data := some [9] }
    [9]
    (by decide) (by decide) rfl rfl rfl (by decide) (by decide) (by decide)

/-- writeBlock at an in-range slot of an openable, non-failing file: the
exact successful result. -/
theorem writeBlock_inbounds (pn : Int) (fh : SM_FileHandle) (buf : Page)
    (d : Disk)
    (hfh : fh.totalNumPages = (d.pages.length : Int))
    (h0 : 0 ≤ pn) (hlt : pn.toNat < d.pages.length)
    (hopen : d.openable = true) (hfail : pn ∉ d.failWrites) :
    writeBlock pn fh (some buf) d =
      (RC_OK,
       { curPagePos := pn, totalNumPages := (d.pages.length : Int) },
       { d with pages := d.pages.set pn.toNat buf }) := by
  have hb : ¬ (pn < 0 ∨ pn > fh.totalNumPages) := by rw [hfh]; omega
  simp [writeBlock, hb, hopen, hfail, setPage, hlt]


/-- The flush loop under an openable file when every dirty unpinned frame
has an in-range slot, a live buffer and a working physical write, and no
two dirty unpinned frames share a page number: it succeeds, flips exactly
the dirty unpinned frames to clean, stores each of their buffers at their
slots, counts one write per flushed frame, touches no other disk slot and
no other frame, and preserves the file's length, openability and failure
set. -/
theorem flushFrames_good :
    ∀ (fs : List FrameInfo) (fh : SM_FileHandle) (d : Disk),
      d.openable = true →
      fh.totalNumPages = (d.pages.length : Int) →
      (∀ f ∈ fs, f.dirtybit = true → f.accessCount = 0 →
        0 ≤ f.pageNumber ∧ f.pageNumber.toNat < d.pages.length ∧
        f.pageNumber ∉ d.failWrites ∧ f.data ≠ none) →
      ((fs.filter fun f => f.dirtybit && f.accessCount == 0).map
        (·.pageNumber)).Nodup →
      (flushFrames fs fh d).1 = RC_OK ∧
      (flushFrames fs fh d).2.2.1.openable = d.openable ∧
      (flushFrames fs fh d).2.2.1.failWrites = d.failWrites ∧
      (flushFrames fs fh d).2.2.1.pages.length = d.pages.length ∧
      (flushFrames fs fh d).2.2.2 =
        ((fs.filter fun f => f.dirtybit && f.accessCount == 0).length : Int) ∧
      (∀ n : Nat,
        (∀ f ∈ fs, f.dirtybit = true → f.accessCount = 0 →
          f.pageNumber.toNat ≠ n) →
        (flushFrames fs fh d).2.2.1.pages[n]? = d.pages[n]?) ∧
      (∀ (j : Nat) (f : FrameInfo), fs[j]? = some f →
        (f.dirtybit = true ∧ f.accessCount = 0 →
          (flushFrames fs fh d).2.1[j]? = some { f with dirtybit := false } ∧
          (flushFrames fs fh d).2.2.1.pages[f.pageNumber.toNat]? = f.data) ∧
        (¬ (f.dirtybit = true ∧ f.accessCount = 0) →
          (flushFrames fs fh d).2.1[j]? = some f)) := by
  intro fs
  induction fs with
  | nil =>
    intro fh d hopen hfh hgood hnodup
    refine ⟨rfl, rfl, rfl, rfl, rfl, fun n _ => rfl, fun j f hj => ?_⟩
    simp at hj
  | cons f fs ih =>
    intro fh d hopen hfh hgood hnodup
    by_cases hdu : f.dirtybit ∧ f.accessCount = 0
    · obtain ⟨h0, hlt, hfail, hdata⟩ :=
        hgood f (List.mem_cons_self f fs) hdu.1 hdu.2
      obtain ⟨buf, hbuf⟩ := Option.ne_none_iff_exists'.mp hdata
      have hwb := writeBlock_inbounds f.pageNumber fh buf d hfh h0 hlt
        hopen hfail
      set fh1 : SM_FileHandle :=
        { curPagePos := f.pageNumber,
          totalNumPages := (d.pages.length : Int) } with hfh1def
      set d1 : Disk :=
        { d with pages := d.pages.set f.pageNumber.toNat buf } with hd1def
      have hopen1 : d1.openable = true := by rw [hd1def]; exact hopen
      have hfh1 : fh1.totalNumPages = (d1.pages.length : Int) := by
        rw [hfh1def, hd1def]; simp
      have hd1len : d1.pages.length = d.pages.length := by
        rw [hd1def]; simp
      have hd1fail : d1.failWrites = d.failWrites := by rw [hd1def]
      have hgood1 : ∀ g ∈ fs, g.dirtybit = true → g.accessCount = 0 →
          0 ≤ g.pageNumber ∧ g.pageNumber.toNat < d1.pages.length ∧
          g.pageNumber ∉ d1.failWrites ∧ g.data ≠ none := by
        intro g hg hgd hga
        obtain ⟨a, b, c, e⟩ := hgood g (List.mem_cons_of_mem f hg) hgd hga
        exact ⟨a, by rw [hd1len]; exact b, by rw [hd1fail]; exact c, e⟩
      have hdub : (f.dirtybit && f.accessCount == 0) = true := by
        simp [hdu.1, hdu.2]
      have hfilter :
          (f :: fs).filter (fun g => g.dirtybit && g.accessCount == 0)
            = f :: fs.filter (fun g => g.dirtybit && g.accessCount == 0) := by
        simp [List.filter_cons, hdub]
      rw [hfilter] at hnodup
      simp only [List.map_cons, List.nodup_cons] at hnodup
      have hnotin := hnodup.1
      obtain ⟨ihrc, ihopen, ihfail, ihlen, ihcnt, ihun, ihfr⟩ :=
        ih fh1 d1 hopen1 hfh1 hgood1 hnodup.2
      have hstep : flushFrames (f :: fs) fh d =
          ((flushFrames fs fh1 d1).1,
           { f with dirtybit := false } :: (flushFrames fs fh1 d1).2.1,
           (flushFrames fs fh1 d1).2.2.1,
           (flushFrames fs fh1 d1).2.2.2 + 1) := by
        rw [flushFrames, if_pos hdu, hbuf, hwb]
      rw [hstep]
      have htoNatne : ∀ g ∈ fs, g.dirtybit = true → g.accessCount = 0 →
          g.pageNumber.toNat ≠ f.pageNumber.toNat := by
        intro g hg hgd hga heq
        have hne : g.pageNumber ≠ f.pageNumber := by
          intro hpe
          exact hnotin (List.mem_map.mpr ⟨g,
            List.mem_filter.mpr ⟨hg, by simp [hgd, hga]⟩, hpe⟩)
        have hg0 := (hgood g (List.mem_cons_of_mem f hg) hgd hga).1
        omega
      refine ⟨ihrc, by rw [ihopen], by rw [ihfail],
        by rw [ihlen]; exact hd1len, ?_, ?_, ?_⟩
      · rw [hfilter, ihcnt]
        simp only [List.length_cons]
        push_cast
        ring
      · intro n hn
        have hfn : f.pageNumber.toNat ≠ n :=
          hn f (List.mem_cons_self f fs) hdu.1 hdu.2
        rw [ihun n
          (fun g hg hgd hga => hn g (List.mem_cons_of_mem f hg) hgd hga)]
        rw [hd1def]
        simpa using List.getElem?_set_ne hfn
      · intro j g hj
        cases j with
        | zero =>
          have hfg : f = g := by simpa using hj
          subst hfg
          refine ⟨fun _ => ⟨by simp, ?_⟩, fun hcon => absurd hdu hcon⟩
          rw [ihun f.pageNumber.toNat
            (fun g hg hgd hga => htoNatne g hg hgd hga)]
          rw [hd1def, hbuf]
          simpa using List.getElem?_set_eq_of_lt buf hlt
        | succ j =>
          have hthis := ihfr j g (by simpa using hj)
          exact ⟨fun hgdu => ⟨by simpa using (hthis.1 hgdu).1,
            (hthis.1 hgdu).2⟩,
            fun hgdu => by simpa using hthis.2 hgdu⟩
    · have hstep : flushFrames (f :: fs) fh d =
          ((flushFrames fs fh d).1,
           f :: (flushFrames fs fh d).2.1,
           (flushFrames fs fh d).2.2.1,
           (flushFrames fs fh d).2.2.2) := by
        rw [flushFrames, if_neg hdu]
      have hdub : ¬ (f.dirtybit && f.accessCount == 0) = true := by
        simpa [Bool.and_eq_true, beq_iff_eq] using hdu
      have hfilter :
          (f :: fs).filter (fun g => g.dirtybit && g.accessCount == 0)
            = fs.filter (fun g => g.dirtybit && g.accessCount == 0) := by
        simp [List.filter_cons, hdub]
      rw [hfilter] at hnodup
      obtain ⟨ihrc, ihopen, ihfail, ihlen, ihcnt, ihun, ihfr⟩ :=
        ih fh d hopen hfh
          (fun g hg hgd hga => hgood g (List.mem_cons_of_mem f hg) hgd hga)
          hnodup
      rw [hstep]
      refine ⟨ihrc, ihopen, ihfail, ihlen, by rw [hfilter, ihcnt], ?_, ?_⟩
      · intro n hn
        exact ihun n
          (fun g hg hgd hga => hn g (List.mem_cons_of_mem f hg) hgd hga)
      · intro j g hj
        cases j with
        | zero =>
          have hfg : f = g := by simpa using hj
          subst hfg
          exact ⟨fun hcon => absurd hcon hdu, fun _ => by simp⟩
        | succ j =>
          have hthis := ihfr j g (by simpa using hj)
          exact ⟨fun hgdu => ⟨by simpa using (hthis.1 hgdu).1,
            (hthis.1 hgdu).2⟩,
            fun hgdu => by simpa using hthis.2 hgdu⟩

/-- When the flush loop does not succeed, it reports RC_WRITE_FAILED and
stopped at the first dirty unpinned frame whose write failed: that frame
and every later one are exactly as before, while every earlier dirty
unpinned frame was flushed (dirty bit cleared) and every other earlier
frame is untouched. -/
theorem flushFrames_fail :
    ∀ (fs : List FrameInfo) (fh : SM_FileHandle) (d : Disk),
      (flushFrames fs fh d).1 ≠ RC_OK →
      (flushFrames fs fh d).1 = RC_WRITE_FAILED ∧
      ∃ (k : Nat) (fk : FrameInfo), fs[k]? = some fk ∧
        fk.dirtybit = true ∧ fk.accessCount = 0 ∧
        (∀ j : Nat, k ≤ j → (flushFrames fs fh d).2.1[j]? = fs[j]?) ∧
        (∀ (j : Nat) (g : FrameInfo), j < k → fs[j]? = some g →
          (g.dirtybit = true ∧ g.accessCount = 0 →
            (flushFrames fs fh d).2.1[j]? =
              some { g with dirtybit := false }) ∧
          (¬ (g.dirtybit = true ∧ g.accessCount = 0) →
            (flushFrames fs fh d).2.1[j]? = some g)) := by
  intro fs
  induction fs with
  | nil => intro fh d hne; exact absurd rfl hne
  | cons f fs ih =>
    intro fh d hne
    by_cases hdu : f.dirtybit ∧ f.accessCount = 0
    · rcases hwrc : (writeBlock f.pageNumber fh f.data d) with ⟨rc, fh', d'⟩
      by_cases hok : rc = RC_OK
      · subst hok
        have hstep : flushFrames (f :: fs) fh d =
            ((flushFrames fs fh' d').1,
             { f with dirtybit := false } :: (flushFrames fs fh' d').2.1,
             (flushFrames fs fh' d').2.2.1,
             (flushFrames fs fh' d').2.2.2 + 1) := by
          rw [flushFrames, if_pos hdu, hwrc]
        rw [hstep] at hne ⊢
        obtain ⟨hrc, k, fk, hk, hkd, hka, hge, hlt⟩ := ih fh' d' hne
        refine ⟨hrc, k + 1, fk, by simpa using hk, hkd, hka, ?_, ?_⟩
        · intro j hj
          cases j with
          | zero => omega
          | succ j => simpa using hge j (by omega)
        · intro j g hj hjg
          cases j with
          | zero =>
            have hfg : f = g := by simpa using hjg
            subst hfg
            exact ⟨fun _ => by simp, fun hcon => absurd hdu hcon⟩
          | succ j =>
            have hthis := hlt j g (by omega) (by simpa using hjg)
            exact ⟨fun hgdu => by simpa using hthis.1 hgdu,
              fun hgdu => by simpa using hthis.2 hgdu⟩
      · have hstep : flushFrames (f :: fs) fh d =
            (RC_WRITE_FAILED, f :: fs, d', 0) := by
          rw [flushFrames, if_pos hdu, hwrc]
          cases rc with
          | RC_OK => exact absurd rfl hok
          | RC_ERROR => rfl
          | RC_FILE_NOT_FOUND => rfl
          | RC_FILE_HANDLE_NOT_INIT => rfl
          | RC_WRITE_FAILED => rfl
          | RC_READ_NON_EXISTING_PAGE => rfl
          | RC_BUFF_POOL_NOT_FOUND => rfl
          | RC_PINNED_PAGES_IN_BUFFER => rfl
        rw [hstep]
        exact ⟨rfl, 0, f, by simp, hdu.1, hdu.2,
          fun j _ => rfl, fun j g hj _ => by omega⟩
    · have hstep : flushFrames (f :: fs) fh d =
          ((flushFrames fs fh d).1,
           f :: (flushFrames fs fh d).2.1,
           (flushFrames fs fh d).2.2.1,
           (flushFrames fs fh d).2.2.2) := by
        rw [flushFrames, if_neg hdu]
      rw [hstep] at hne ⊢
      obtain ⟨hrc, k, fk, hk, hkd, hka, hge, hlt⟩ := ih fh d hne
      refine ⟨hrc, k + 1, fk, by simpa using hk, hkd, hka, ?_, ?_⟩
      · intro j hj
        cases j with
        | zero => omega
        | succ j => simpa using hge j (by omega)
      · intro j g hj hjg
        cases j with
        | zero =>
          have hfg : f = g := by simpa using hjg
          subst hfg
          exact ⟨fun hcon => absurd hcon hdu, fun _ => by simp⟩
        | succ j =>
          have hthis := hlt j g (by omega) (by simpa using hjg)
          exact ⟨fun hgdu => by simpa using hthis.1 hgdu,
            fun hgdu => by simpa using hthis.2 hgdu⟩

/-- C5: forceFlushPool over an openable file. When every dirty unpinned
frame has an in-range slot, a live buffer and a working physical write,
and dirty unpinned frames hold distinct pages (the pool invariant), the
call succeeds, writes every dirty unpinned frame's buffer to its disk
slot, clears exactly those dirty flags, and adds one write per flushed
frame to writeCount, while every other frame — in particular every dirty
but pinned one — is left entirely unchanged. And whenever the call does
not succeed it returns RC_WRITE_FAILED, having stopped at the first dirty
unpinned frame whose write failed: that frame and all later ones are
untouched and the dirty unpinned frames before it are flushed clean. -/
theorem forceFlushPool_spec (bm : BM_BufferPool) (d : Disk)
    (hopen : d.openable = true) :
    (((∀ f ∈ bm.poolInfo.frames, f.dirtybit = true → f.accessCount = 0 →
        0 ≤ f.pageNumber ∧ f.pageNumber.toNat < d.pages.length ∧
        f.pageNumber ∉ d.failWrites ∧ f.data ≠ none) ∧
      ((bm.poolInfo.frames.filter
          fun f => f.dirtybit && f.accessCount == 0).map
        (·.pageNumber)).Nodup) →
      (forceFlushPool bm d).1 = RC_OK ∧
      (forceFlushPool bm d).2.1.poolInfo.writeCount =
        bm.poolInfo.writeCount +
        ((bm.poolInfo.frames.filter
          fun f => f.dirtybit && f.accessCount == 0).length : Int) ∧
      (∀ (j : Nat) (f : FrameInfo), bm.poolInfo.frames[j]? = some f →
        (f.dirtybit = true ∧ f.accessCount = 0 →
          (forceFlushPool bm d).2.1.poolInfo.frames[j]? =
            some { f with dirtybit := false } ∧
          (forceFlushPool bm d).2.2.pages[f.pageNumber.toNat]? = f.data) ∧
        (¬ (f.dirtybit = true ∧ f.accessCount = 0) →
          (forceFlushPool bm d).2.1.poolInfo.frames[j]? = some f))) ∧
    ((forceFlushPool bm d).1 ≠ RC_OK →
      (forceFlushPool bm d).1 = RC_WRITE_FAILED ∧
      ∃ (k : Nat) (fk : FrameInfo), bm.poolInfo.frames[k]? = some fk ∧
        fk.dirtybit = true ∧ fk.accessCount = 0 ∧
        (∀ j : Nat, k ≤ j →
          (forceFlushPool bm d).2.1.poolInfo.frames[j]? =
            bm.poolInfo.frames[j]?) ∧
        (∀ (j : Nat) (g : FrameInfo), j < k →
          bm.poolInfo.frames[j]? = some g →
          (g.dirtybit = true ∧ g.accessCount = 0 →
            (forceFlushPool bm d).2.1.poolInfo.frames[j]? =
              some { g with dirtybit := false }) ∧
          (¬ (g.dirtybit = true ∧ g.accessCount = 0) →
            (forceFlushPool bm d).2.1.poolInfo.frames[j]? = some g))) := by
  have hred : forceFlushPool bm d =
      ((flushFrames bm.poolInfo.frames
          { curPagePos := 0, totalNumPages := (d.pages.length : Int) } d).1,
       { bm with poolInfo :=
          { bm.poolInfo with
              frames := (flushFrames bm.poolInfo.frames
                { curPagePos := 0,
                  totalNumPages := (d.pages.length : Int) } d).2.1,
              writeCount := bm.poolInfo.writeCount +
                (flushFrames bm.poolInfo.frames
                  { curPagePos := 0,
                    totalNumPages := (d.pages.length : Int) } d).2.2.2 } },
       (flushFrames bm.poolInfo.frames
          { curPagePos := 0, totalNumPages := (d.pages.length : Int) } d).2.2.1) := by
    rw [forceFlushPool, openPageFile, if_pos hopen]
  constructor
  · rintro ⟨hgood, hnodup⟩
    obtain ⟨hrc, -, -, -, hcnt, -, hframes⟩ :=
      flushFrames_good bm.poolInfo.frames
        { curPagePos := 0, totalNumPages := (d.pages.length : Int) } d
        hopen rfl hgood hnodup
    rw [hred]
    exact ⟨hrc, by rw [hcnt], fun j f hj => hframes j f hj⟩
  · intro hne
    rw [hred] at hne ⊢
    obtain ⟨hrc, k, fk, hk, hkd, hka, hge, hlt⟩ :=
      flushFrames_fail bm.poolInfo.frames
        { curPagePos := 0, totalNumPages := (d.pages.length : Int) } d hne
    exact ⟨hrc, k, fk, hk, hkd, hka, hge, hlt⟩

/-- Witness for C5: dirty unpinned page 0 gets flushed, dirty pinned page
1 is skipped; forceFlushPool succeeds having counted exactly one write. -/
theorem forceFlushPool_spec_witness :
    (forceFlushPool
      { numPages := 2, strategy := RS_LRU,
        poolInfo :=
          { frames := [{ pageNumber := 0, dirtybit := true, accessCount := 0,
                         secondChance := false, recentHit := 1, index := 0,
                         data := some [5] },
                       { pageNumber := 1, dirtybit := true, accessCount := 1,
                         secondChance := false, recentHit := 2, index := 0,
                         data := some [6] }],
            readCount := 2, writeCount := 0, recentHitCount := 2,
            frameIndex := 0, clockPointer := 0, bufferSize := 2 } }
      ⟨true, [[0], [1]], []⟩).1 = RC_OK ∧
    (forceFlushPool
      { numPages := 2, strategy := RS_LRU,
        poolInfo :=
          { frames := [{ pageNumber := 0, dirtybit := true, accessCount := 0,
                         secondChance := false, recentHit := 1, index := 0,
                         data := some [5] },
                       { pageNumber := 1, dirtybit := true, accessCount := 1,
                         secondChance := false, recentHit := 2, index := 0,
                         data := some [6] }],
            readCount := 2, writeCount := 0, recentHitCount := 2,
            frameIndex := 0, clockPointer := 0, bufferSize := 2 } }
      ⟨true, [[0], [1]], []⟩).2.1.poolInfo.writeCount = 1 := by
  have h := (forceFlushPool_spec
      { numPages := 2, strategy := RS_LRU,
        poolInfo :=
          { frames := [{ pageNumber := 0, dirtybit := true, accessCount := 0,
                         secondChance := false, recentHit := 1, index := 0,
                         data := some [5] },
                       { pageNumber := 1, dirtybit := true, accessCount := 1,
                         secondChance := false, recentHit := 2, index := 0,
                         data := some [6] }],
            readCount := 2, writeCount := 0, recentHitCount := 2,
            frameIndex := 0, clockPointer := 0, bufferSize := 2 } }
      ⟨true, [[0], [1]], []⟩ rfl).1 ⟨by decide, by decide⟩
  exact ⟨h.1, by rw [h.2.1]; decide⟩

/-- writeBlock never changes the file's openability or failure set. -/
theorem writeBlock_disk_meta (pn : Int) (fh : SM_FileHandle)
    (m : Option Page) (d : Disk) :
    (writeBlock pn fh m d).2.2.openable = d.openable ∧
    (writeBlock pn fh m d).2.2.failWrites = d.failWrites := by
  cases m with
  | none => exact ⟨rfl, rfl⟩
  | some buf =>
    simp only [writeBlock]
    split_ifs <;> exact ⟨rfl, rfl⟩

/-- A failed writeBlock leaves the disk untouched. -/
theorem writeBlock_fail_disk (pn : Int) (fh : SM_FileHandle)
    (m : Option Page) (d : Disk)
    (h : (writeBlock pn fh m d).1 ≠ RC_OK) :
    (writeBlock pn fh m d).2.2 = d := by
  cases m with
  | none => rfl
  | some buf =>
    simp only [writeBlock] at h ⊢
    split_ifs at h ⊢ <;> first | rfl | exact absurd rfl h

/-- Whether writeBlock fails depends on the handle only through its
totalNumPages: re-running a failed write with a fresh handle recording the
same page count fails again. -/
theorem writeBlock_fail_congr (pn : Int) (fh fh2 : SM_FileHandle)
    (m : Option Page) (d : Disk)
    (hT : fh2.totalNumPages = fh.totalNumPages)
    (h : (writeBlock pn fh m d).1 ≠ RC_OK) :
    (writeBlock pn fh2 m d).1 ≠ RC_OK := by
  cases m with
  | none => simp [writeBlock]
  | some buf =>
    simp only [writeBlock, hT] at h ⊢
    split_ifs at h ⊢ <;> simp_all

/-- A successful writeBlock leaves a handle whose totalNumPages matches
the resulting file. -/
theorem writeBlock_ok_fh (pn : Int) (fh : SM_FileHandle)
    (m : Option Page) (d : Disk)
    (h : (writeBlock pn fh m d).1 = RC_OK) :
    (writeBlock pn fh m d).2.1.totalNumPages =
      ((writeBlock pn fh m d).2.2.pages.length : Int) := by
  cases m with
  | none => simp [writeBlock] at h
  | some buf =>
    simp only [writeBlock] at h ⊢
    split_ifs at h ⊢ <;> simp_all

/-- The flush loop never changes the file's openability. -/
theorem flushFrames_openable :
    ∀ (fs : List FrameInfo) (fh : SM_FileHandle) (d : Disk),
      (flushFrames fs fh d).2.2.1.openable = d.openable := by
  intro fs
  induction fs with
  | nil => intro fh d; rfl
  | cons f fs ih =>
    intro fh d
    by_cases hdu : f.dirtybit ∧ f.accessCount = 0
    · rcases hwrc : writeBlock f.pageNumber fh f.data d with ⟨rc, fh', d'⟩
      have hmeta := (writeBlock_disk_meta f.pageNumber fh f.data d).1
      rw [hwrc] at hmeta
      cases hok : rc with
      | RC_OK =>
        subst hok
        have hstep : flushFrames (f :: fs) fh d =
            ((flushFrames fs fh' d').1,
             { f with dirtybit := false } :: (flushFrames fs fh' d').2.1,
             (flushFrames fs fh' d').2.2.1,
             (flushFrames fs fh' d').2.2.2 + 1) := by
          rw [flushFrames, if_pos hdu, hwrc]
        rw [hstep]
        exact (ih fh' d').trans hmeta
      | RC_ERROR =>
        subst hok
        have hstep : flushFrames (f :: fs) fh d =
            (RC_WRITE_FAILED, f :: fs, d', 0) := by
          rw [flushFrames, if_pos hdu, hwrc]
        rw [hstep]; exact hmeta
      | RC_FILE_NOT_FOUND =>
        subst hok
        have hstep : flushFrames (f :: fs) fh d =
            (RC_WRITE_FAILED, f :: fs, d', 0) := by
          rw [flushFrames, if_pos hdu, hwrc]
        rw [hstep]; exact hmeta
      | RC_FILE_HANDLE_NOT_INIT =>
        subst hok
        have hstep : flushFrames (f :: fs) fh d =
            (RC_WRITE_FAILED, f :: fs, d', 0) := by
          rw [flushFrames, if_pos hdu, hwrc]
        rw [hstep]; exact hmeta
      | RC_WRITE_FAILED =>
        subst hok
        have hstep : flushFrames (f :: fs) fh d =
            (RC_WRITE_FAILED, f :: fs, d', 0) := by
          rw [flushFrames, if_pos hdu, hwrc]
        rw [hstep]; exact hmeta
      | RC_READ_NON_EXISTING_PAGE =>
        subst hok
        have hstep : flushFrames (f :: fs) fh d =
            (RC_WRITE_FAILED, f :: fs, d', 0) := by
          rw [flushFrames, if_pos hdu, hwrc]
        rw [hstep]; exact hmeta
      | RC_BUFF_POOL_NOT_FOUND =>
        subst hok
        have hstep : flushFrames (f :: fs) fh d =
            (RC_WRITE_FAILED, f :: fs, d', 0) := by
          rw [flushFrames, if_pos hdu, hwrc]
        rw [hstep]; exact hmeta
      | RC_PINNED_PAGES_IN_BUFFER =>
        subst hok
        have hstep : flushFrames (f :: fs) fh d =
            (RC_WRITE_FAILED, f :: fs, d', 0) := by
          rw [flushFrames, if_pos hdu, hwrc]
        rw [hstep]; exact hmeta
    · have hstep : flushFrames (f :: fs) fh d =
          ((flushFrames fs fh d).1,
           f :: (flushFrames fs fh d).2.1,
           (flushFrames fs fh d).2.2.1,
           (flushFrames fs fh d).2.2.2) := by
        rw [flushFrames, if_neg hdu]
      rw [hstep]
      exact ih fh d

/-- One flush step on a dirty unpinned head whose write succeeds. -/
theorem flushFrames_cons_ok (f : FrameInfo) (fs : List FrameInfo)
    (fh : SM_FileHandle) (d : Disk)
    (hdu : f.dirtybit ∧ f.accessCount = 0)
    (hok : (writeBlock f.pageNumber fh f.data d).1 = RC_OK) :
    flushFrames (f :: fs) fh d =
      ((flushFrames fs (writeBlock f.pageNumber fh f.data d).2.1
          (writeBlock f.pageNumber fh f.data d).2.2).1,
       { f with dirtybit := false } ::
         (flushFrames fs (writeBlock f.pageNumber fh f.data d).2.1
            (writeBlock f.pageNumber fh f.data d).2.2).2.1,
       (flushFrames fs (writeBlock f.pageNumber fh f.data d).2.1
          (writeBlock f.pageNumber fh f.data d).2.2).2.2.1,
       (flushFrames fs (writeBlock f.pageNumber fh f.data d).2.1
          (writeBlock f.pageNumber fh f.data d).2.2).2.2.2 + 1) := by
  rw [flushFrames, if_pos hdu]
  rcases hwrc : writeBlock f.pageNumber fh f.data d with ⟨rc, fh', d'⟩
  rw [hwrc] at hok
  cases rc <;> simp_all

/-- One flush step on a dirty unpinned head whose write fails. -/
theorem flushFrames_cons_fail (f : FrameInfo) (fs : List FrameInfo)
    (fh : SM_FileHandle) (d : Disk)
    (hdu : f.dirtybit ∧ f.accessCount = 0)
    (hne : (writeBlock f.pageNumber fh f.data d).1 ≠ RC_OK) :
    flushFrames (f :: fs) fh d =
      (RC_WRITE_FAILED, f :: fs,
       (writeBlock f.pageNumber fh f.data d).2.2, 0) := by
  rw [flushFrames, if_pos hdu]
  rcases hwrc : writeBlock f.pageNumber fh f.data d with ⟨rc, fh', d'⟩
  rw [hwrc] at hne
  cases rc <;> simp_all

/-- One flush step on a head that is not both dirty and unpinned. -/
theorem flushFrames_cons_skip (f : FrameInfo) (fs : List FrameInfo)
    (fh : SM_FileHandle) (d : Disk)
    (hdu : ¬ (f.dirtybit ∧ f.accessCount = 0)) :
    flushFrames (f :: fs) fh d =
      ((flushFrames fs fh d).1,
       f :: (flushFrames fs fh d).2.1,
       (flushFrames fs fh d).2.2.1,
       (flushFrames fs fh d).2.2.2) := by
  rw [flushFrames, if_neg hdu]

/-- Re-running the flush loop on its own output (with a fresh handle over
the resulting file) changes nothing and performs zero writes: the first
pass cleared every frame it flushed, and the frame it failed on — if any —
fails identically again before touching the disk. -/
theorem flushFrames_twice :
    ∀ (fs : List FrameInfo) (fh : SM_FileHandle) (d : Disk),
      fh.totalNumPages = (d.pages.length : Int) →
      ∀ fh2 : SM_FileHandle,
        fh2.totalNumPages =
          ((flushFrames fs fh d).2.2.1.pages.length : Int) →
        flushFrames (flushFrames fs fh d).2.1 fh2
            (flushFrames fs fh d).2.2.1
          = ((flushFrames fs fh d).1, (flushFrames fs fh d).2.1,
             (flushFrames fs fh d).2.2.1, 0) := by
  intro fs
  induction fs with
  | nil =>
    intro fh d hfh fh2 hfh2
    rfl
  | cons f fs ih =>
    intro fh d hfh fh2 hfh2
    by_cases hdu : f.dirtybit ∧ f.accessCount = 0
    · by_cases hok : (writeBlock f.pageNumber fh f.data d).1 = RC_OK
      · have hstep := flushFrames_cons_ok f fs fh d hdu hok
        have hfh' := writeBlock_ok_fh f.pageNumber fh f.data d hok
        rw [hstep] at hfh2 ⊢
        have hdu2 : ¬ (({ f with dirtybit := false } : FrameInfo).dirtybit
            ∧ ({ f with dirtybit := false } : FrameInfo).accessCount = 0) := by
          simp
        rw [flushFrames_cons_skip _ _ _ _ hdu2]
        rw [ih (writeBlock f.pageNumber fh f.data d).2.1
          (writeBlock f.pageNumber fh f.data d).2.2 hfh' fh2 hfh2]
      · have hstep := flushFrames_cons_fail f fs fh d hdu hok
        have hdisk := writeBlock_fail_disk f.pageNumber fh f.data d hok
        rw [hstep, hdisk] at hfh2 ⊢
        have hok2 : (writeBlock f.pageNumber fh2 f.data d).1 ≠ RC_OK := by
          refine writeBlock_fail_congr f.pageNumber fh fh2 f.data d ?_ hok
          rw [hfh2, hfh]
        have hstep2 := flushFrames_cons_fail f fs fh2 d hdu hok2
        have hdisk2 := writeBlock_fail_disk f.pageNumber fh2 f.data d hok2
        rw [hstep2, hdisk2]
    · have hstep := flushFrames_cons_skip f fs fh d hdu
      rw [hstep] at hfh2 ⊢
      rw [flushFrames_cons_skip _ _ _ _ hdu]
      rw [ih fh d hfh fh2 hfh2]

/-- C6: calling forceFlushPool twice in succession changes nothing in the
second call: the resulting disk — hence every byte on it, so no disk write
happens — and the resulting pool — hence writeCount — are exactly those of
the first call. -/
theorem forceFlushPool_twice_noop (bm : BM_BufferPool) (d : Disk) :
    (forceFlushPool (forceFlushPool bm d).2.1 (forceFlushPool bm d).2.2).2.2
      = (forceFlushPool bm d).2.2 ∧
    (forceFlushPool (forceFlushPool bm d).2.1 (forceFlushPool bm d).2.2).2.1
      = (forceFlushPool bm d).2.1 := by
  by_cases hop : d.openable = true
  · have hred : forceFlushPool bm d =
        ((flushFrames bm.poolInfo.frames
            { curPagePos := 0, totalNumPages := (d.pages.length : Int) } d).1,
         { bm with poolInfo :=
            { bm.poolInfo with
                frames := (flushFrames bm.poolInfo.frames
                  { curPagePos := 0,
                    totalNumPages := (d.pages.length : Int) } d).2.1,
                writeCount := bm.poolInfo.writeCount +
                  (flushFrames bm.poolInfo.frames
                    { curPagePos := 0,
                      totalNumPages := (d.pages.length : Int) } d).2.2.2 } },
         (flushFrames bm.poolInfo.frames
            { curPagePos := 0, totalNumPages := (d.pages.length : Int) } d).2.2.1) := by
      rw [forceFlushPool, openPageFile, if_pos hop]
    have hop1 : (flushFrames bm.poolInfo.frames
        { curPagePos := 0, totalNumPages := (d.pages.length : Int) } d).2.2.1.openable
        = true := by
      rw [flushFrames_openable]; exact hop
    have hred2 : forceFlushPool (forceFlushPool bm d).2.1
        (forceFlushPool bm d).2.2 =
        ((flushFrames (forceFlushPool bm d).2.1.poolInfo.frames
            { curPagePos := 0,
              totalNumPages :=
                ((forceFlushPool bm d).2.2.pages.length : Int) }
            (forceFlushPool bm d).2.2).1,
         { (forceFlushPool bm d).2.1 with poolInfo :=
            { (forceFlushPool bm d).2.1.poolInfo with
                frames := (flushFrames (forceFlushPool bm d).2.1.poolInfo.frames
                  { curPagePos := 0,
                    totalNumPages :=
                      ((forceFlushPool bm d).2.2.pages.length : Int) }
                  (forceFlushPool bm d).2.2).2.1,
                writeCount := (forceFlushPool bm d).2.1.poolInfo.writeCount +
                  (flushFrames (forceFlushPool bm d).2.1.poolInfo.frames
                    { curPagePos := 0,
                      totalNumPages :=
                        ((forceFlushPool bm d).2.2.pages.length : Int) }
                    (forceFlushPool bm d).2.2).2.2.2 } },
         (flushFrames (forceFlushPool bm d).2.1.poolInfo.frames
            { curPagePos := 0,
              totalNumPages :=
                ((forceFlushPool bm d).2.2.pages.length : Int) }
            (forceFlushPool bm d).2.2).2.2.1) := by
      rw [forceFlushPool, openPageFile]
      rw [show (forceFlushPool bm d).2.2.openable = true from by
        rw [hred]; exact hop1]
      rfl
    have hframes1 : (forceFlushPool bm d).2.1.poolInfo.frames
        = (flushFrames bm.poolInfo.frames
            { curPagePos := 0, totalNumPages := (d.pages.length : Int) } d).2.1 := by
      rw [hred]
    have hdisk1 : (forceFlushPool bm d).2.2
        = (flushFrames bm.poolInfo.frames
            { curPagePos := 0, totalNumPages := (d.pages.length : Int) } d).2.2.1 := by
      rw [hred]
    have htwice := flushFrames_twice bm.poolInfo.frames
      { curPagePos := 0, totalNumPages := (d.pages.length : Int) } d rfl
      { curPagePos := 0,
        totalNumPages := ((flushFrames bm.poolInfo.frames
          { curPagePos := 0, totalNumPages := (d.pages.length : Int) }
          d).2.2.1.pages.length : Int) }
      rfl
    rw [hred2, hframes1, hdisk1, htwice]
    constructor
    · rfl
    · rw [hred]
      simp
  · have hopf : openPageFile d = Except.error RC_FILE_NOT_FOUND := by
      simp [openPageFile, hop]
    have hred : forceFlushPool bm d = (RC_FILE_NOT_FOUND, bm, d) := by
      rw [forceFlushPool, hopf]
    constructor <;> simp [hred]
